import Mathlib

/-!
Verification of the feature-map rendering engine of
`ysdc_dataset_api/rendering/renderering.py`.

The Python code is shallowly embedded: numpy 4x4 float matrices become a
`Mat4` structure over `ℚ`, tracks and scenes become plain structures, and
the mutating `cv2.fillPoly` calls of a `render` invocation are modelled as
the (order-significant) sequence of fill operations the code issues, each
one carrying the resolved channel plane, the transformed integer polygon
and the scalar fill value.  An out-of-range numpy channel index (which in
Python raises `IndexError`) makes the modelled render return `none`.

Helpers imported from `ysdc_dataset_api.utils` are not part of the two
source files; they are modelled from the spec and carry a
`Modelled from the spec:` doc comment.
-/

namespace Shifts

/-- A 4x4 matrix over `ℚ`, embedding the numpy `(4, 4)` float arrays used
for affine transforms. -/
structure Mat4 where
  a00 : ℚ
  a01 : ℚ
  a02 : ℚ
  a03 : ℚ
  a10 : ℚ
  a11 : ℚ
  a12 : ℚ
  a13 : ℚ
  a20 : ℚ
  a21 : ℚ
  a22 : ℚ
  a23 : ℚ
  a30 : ℚ
  a31 : ℚ
  a32 : ℚ
  a33 : ℚ
deriving DecidableEq

/-- Matrix product, embedding the `@` operator on 4x4 numpy arrays. -/
def Mat4.mul (m n : Mat4) : Mat4 where
  a00 := m.a00 * n.a00 + m.a01 * n.a10 + m.a02 * n.a20 + m.a03 * n.a30
  a01 := m.a00 * n.a01 + m.a01 * n.a11 + m.a02 * n.a21 + m.a03 * n.a31
  a02 := m.a00 * n.a02 + m.a01 * n.a12 + m.a02 * n.a22 + m.a03 * n.a32
  a03 := m.a00 * n.a03 + m.a01 * n.a13 + m.a02 * n.a23 + m.a03 * n.a33
  a10 := m.a10 * n.a00 + m.a11 * n.a10 + m.a12 * n.a20 + m.a13 * n.a30
  a11 := m.a10 * n.a01 + m.a11 * n.a11 + m.a12 * n.a21 + m.a13 * n.a31
  a12 := m.a10 * n.a02 + m.a11 * n.a12 + m.a12 * n.a22 + m.a13 * n.a32
  a13 := m.a10 * n.a03 + m.a11 * n.a13 + m.a12 * n.a23 + m.a13 * n.a33
  a20 := m.a20 * n.a00 + m.a21 * n.a10 + m.a22 * n.a20 + m.a23 * n.a30
  a21 := m.a20 * n.a01 + m.a21 * n.a11 + m.a22 * n.a21 + m.a23 * n.a31
  a22 := m.a20 * n.a02 + m.a21 * n.a12 + m.a22 * n.a22 + m.a23 * n.a32
  a23 := m.a20 * n.a03 + m.a21 * n.a13 + m.a22 * n.a23 + m.a23 * n.a33
  a30 := m.a30 * n.a00 + m.a31 * n.a10 + m.a32 * n.a20 + m.a33 * n.a30
  a31 := m.a30 * n.a01 + m.a31 * n.a11 + m.a32 * n.a21 + m.a33 * n.a31
  a32 := m.a30 * n.a02 + m.a31 * n.a12 + m.a32 * n.a22 + m.a33 * n.a32
  a33 := m.a30 * n.a03 + m.a31 * n.a13 + m.a32 * n.a23 + m.a33 * n.a33

/-- An agent's state at one timestep: footprint polygon, heading, velocity
and acceleration vectors (the fields of the protobuf `Track` message the
renderer reads). -/
structure Track where
  polygon : List (ℚ × ℚ)
  yaw : ℚ
  velocity : ℚ × ℚ
  acceleration : ℚ × ℚ
deriving DecidableEq

/-- A scene snapshot, exposed to the renderer as maps from a (negative)
time offset to the tracks present at that offset, per the scene-provider
interface: `scene.past_vehicle_tracks[ts_ind].tracks`,
`scene.past_pedestrian_tracks[ts_ind].tracks`, `scene.past_ego_track[ts_ind]`. -/
structure Scene where
  past_vehicle_tracks : Int → List Track
  past_pedestrian_tracks : Int → List Track
  past_ego_track : Int → Track

/-- Length of the Python `range(a, b, s)` sequence for a nonzero integer
step `s` (Python raises `ValueError` on `s = 0`; no modelled call site
passes `0`, and this embedding returns the empty range there). -/
def pyRangeLen (a b s : Int) : Nat :=
  if 0 < s then (b - a + s - 1).toNat / s.toNat
  else if s < 0 then (a - b - s - 1).toNat / (-s).toNat
  else 0

/-- The Python `range(a, b, s)` sequence as a list: `a, a + s, a + 2*s, …`. -/
def pyRange (a b s : Int) : List Int :=
  (List.range (pyRangeLen a b s)).map (fun k : Nat => a + s * (k : Int))

/-- A time-grid specification `{start, stop, step}` (`time_grid_params`). -/
structure TimeGrid where
  start : Int
  stop : Int
  step : Int
deriving DecidableEq

/-- Embeds `MAX_HISTORY_LENGTH = 25`. -/
def MAX_HISTORY_LENGTH : Int := 25

/-- Embeds `FeatureMapRendererBase._get_history_indices`:
`list(range(-stop - 1, -start, step))`. -/
def historyIndices (tg : TimeGrid) : List Int :=
  pyRange (-tg.stop - 1) (-tg.start) tg.step

/-- Embeds `FeatureRenderer._validate_time_grid`: raising `ValueError`
becomes returning `.error`. -/
def validateTimeGrid (tg : TimeGrid) : Except String TimeGrid :=
  if tg.start < 0 then .error "start value must be non-negative."
  else if tg.stop < 0 then .error "stop value must be non-negative"
  else if tg.start > tg.stop then .error "start must be less or equal to stop"
  else if tg.stop + 1 > MAX_HISTORY_LENGTH then
    .error "Maximum history size is 25. Consider setting stop to 24 or less"
  else .ok tg

/-- Embeds `VehicleTracksRenderer._get_num_channels`.  The configuration is
the set of enabled attribute flags, embedded as a list of strings with
Python `in` becoming list membership. -/
def vehicleNumChannels (config : List String) : Nat :=
  (if "occupancy" ∈ config then 1 else 0)
    + (if "velocity" ∈ config then 2 else 0)
    + (if "acceleration" ∈ config then 2 else 0)
    + (if "yaw" ∈ config then 1 else 0)

/-- Embeds `PedestrianTracksRenderer._get_num_channels`. -/
def pedestrianNumChannels (config : List String) : Nat :=
  (if "occupancy" ∈ config then 1 else 0)
    + (if "velocity" ∈ config then 2 else 0)

/-- Application of the linear (rotation/scale) part of a transform to a 2D
vector: translation column ignored. -/
def linearApply (m : Mat4) (v : ℚ × ℚ) : ℚ × ℚ :=
  (m.a00 * v.1 + m.a01 * v.2, m.a10 * v.1 + m.a11 * v.2)

/-- Modelled from the spec: `get_transformed_velocity` lives in
`ysdc_dataset_api.utils`, which is not among the source files.  Per §4.3 it
transforms the track's velocity by the linear part of the given transform
(rotation/scale only, no translation) and yields the x,y scalars. -/
def get_transformed_velocity (track : Track) (tf : Mat4) : ℚ × ℚ :=
  linearApply tf track.velocity

/-- Modelled from the spec: `get_transformed_acceleration` lives in
`ysdc_dataset_api.utils`; per §4.3 it transforms the track's acceleration
by the linear part of the given transform. -/
def get_transformed_acceleration (track : Track) (tf : Mat4) : ℚ × ℚ :=
  linearApply tf track.acceleration

/-- Modelled from the spec: `get_track_polygon` lives in
`ysdc_dataset_api.utils`; it returns the track's footprint polygon as a
batch of 2D points. -/
def get_track_polygon (track : Track) : List (ℚ × ℚ) :=
  track.polygon

/-- Modelled from the spec: `transform2dpoints` lives in
`ysdc_dataset_api.utils`; per §4.1 it applies an affine transform to a
batch of 2D points by homogeneous extension (z = 0, w = 1), preserving
order. -/
def transform2dpoints (pts : List (ℚ × ℚ)) (tf : Mat4) : List (ℚ × ℚ) :=
  pts.map (fun p =>
    (tf.a00 * p.1 + tf.a01 * p.2 + tf.a03,
     tf.a10 * p.1 + tf.a11 * p.2 + tf.a13))

/-- Embeds `np.around` on a scalar: round half to even. -/
def npAround (q : ℚ) : Int :=
  if q - ⌊q⌋ < 1 / 2 then ⌊q⌋
  else if q - ⌊q⌋ > 1 / 2 then ⌊q⌋ + 1
  else if 2 ∣ ⌊q⌋ then ⌊q⌋ else ⌊q⌋ + 1

/-- Embeds `FeatureMapRendererBase._get_transformed_track_polygon`:
`np.around(transform2dpoints(get_track_polygon(track), transform) - 0.5)`
cast to int32. -/
def transformedTrackPolygon (track : Track) (transform : Mat4) : List (Int × Int) :=
  (transform2dpoints (get_track_polygon track) transform).map
    (fun p => (npAround (p.1 - 1 / 2), npAround (p.2 - 1 / 2)))

/-- Embeds `VehicleTracksRenderer._get_fm_values`: the per-track channel
value vector, built in the fixed order occupancy, velocity x, velocity y,
acceleration x, acceleration y, yaw.  Note the code passes
`to_track_transform` (not the composed feature-map transform) to the
velocity and acceleration helpers. -/
def vehicleFmValues (config : List String) (track : Track)
    (to_track_transform : Mat4) : List ℚ :=
  (if "occupancy" ∈ config then [(1 : ℚ)] else [])
    ++ (if "velocity" ∈ config then
          [(get_transformed_velocity track to_track_transform).1,
           (get_transformed_velocity track to_track_transform).2] else [])
    ++ (if "acceleration" ∈ config then
          [(get_transformed_acceleration track to_track_transform).1,
           (get_transformed_acceleration track to_track_transform).2] else [])
    ++ (if "yaw" ∈ config then [track.yaw] else [])

/-- Embeds `PedestrianTracksRenderer._get_fm_values`. -/
def pedestrianFmValues (config : List String) (track : Track)
    (to_track_transform : Mat4) : List ℚ :=
  (if "occupancy" ∈ config then [(1 : ℚ)] else [])
    ++ (if "velocity" ∈ config then
          [(get_transformed_velocity track to_track_transform).1,
           (get_transformed_velocity track to_track_transform).2] else [])

/-- One `cv2.fillPoly` call issued during a render: the resolved channel
plane written to, the transformed integer polygon, and the scalar fill
value.  The sequence of these operations (in program order) fully
determines the rendered buffer, since each plane starts at zero and later
fills overwrite earlier ones pixelwise. -/
structure FillOp where
  channel : Nat
  polygon : List (Int × Int)
  value : ℚ
deriving DecidableEq

/-- Resolution of a (possibly negative) numpy index against an axis of
length `len`: negative indices count from the end, indices outside
`[-len, len)` raise `IndexError`, modelled as `none`. -/
def resolveIndex (len : Nat) (i : Int) : Option Nat :=
  if 0 ≤ i then (if i < (len : Int) then some i.toNat else none)
  else (if -(len : Int) ≤ i then some (i + len).toNat else none)

/-- Sequences a fallible list-producing computation over a list,
concatenating the produced chunks; the first failure aborts the whole run
(as an exception aborts a Python loop). -/
def optFlatMap (f : α → Option (List β)) : List α → Option (List β)
  | [] => some []
  | a :: l =>
    (f a).bind (fun bs => (optFlatMap f l).map (fun rest => bs ++ rest))

/-- Embeds the inner `for i, v in enumerate(self._get_fm_values(...))` loop
of the render methods: for each value `v` at enumeration index `i`, one
fill of plane `feature_map[ts_ind * num_channels + i]`.  `len` is the
channel-axis length `num_channels * n_history_steps` of the renderer's
buffer; an out-of-range plane index aborts with `none`. -/
def valueOps (len numChannels : Nat) (ts_ind : Int) (poly : List (Int × Int)) :
    List ℚ → Nat → Option (List FillOp)
  | [], _ => some []
  | v :: vs, i =>
    (resolveIndex len (ts_ind * numChannels + i)).bind (fun ch =>
      (valueOps len numChannels ts_ind poly vs (i + 1)).map
        (fun rest => ⟨ch, poly, v⟩ :: rest))

/-- The fill operations the vehicle renderer issues for one track at one
history offset: polygon transformed by the composed transform, values
computed by `_get_fm_values` from `to_track_transform`. -/
def vehicleTrackOps (config : List String) (len numChannels : Nat)
    (transform to_track_transform : Mat4) (ts_ind : Int) (track : Track) :
    Option (List FillOp) :=
  valueOps len numChannels ts_ind (transformedTrackPolygon track transform)
    (vehicleFmValues config track to_track_transform) 0

/-- Embeds one iteration of the `for ts_ind in self._history_indices` loop
of `VehicleTracksRenderer.render`: all tracks at that offset in scene
order, then the ego track. -/
def vehicleStepOps (config : List String) (len numChannels : Nat)
    (transform to_track_transform : Mat4) (scene : Scene) (ts_ind : Int) :
    Option (List FillOp) :=
  (optFlatMap
      (vehicleTrackOps config len numChannels transform to_track_transform ts_ind)
      (scene.past_vehicle_tracks ts_ind)).bind (fun trackOps =>
    (vehicleTrackOps config len numChannels transform to_track_transform
        ts_ind (scene.past_ego_track ts_ind)).map (fun egoOps =>
      trackOps ++ egoOps))

/-- Embeds `VehicleTracksRenderer.render` at the fill-operation level.
`historyIndices` is the `_history_indices` list stored at construction;
the buffer's channel-axis length is `num_channels * n_history_steps`
(`_create_feature_map`); `transform = to_feature_map_tf @ to_track_transform`. -/
def vehicleRender (config : List String) (historyIndices : List Int)
    (to_feature_map_tf : Mat4) (scene : Scene) (to_track_transform : Mat4) :
    Option (List FillOp) :=
  let numChannels := vehicleNumChannels config
  let len := numChannels * historyIndices.length
  let transform := Mat4.mul to_feature_map_tf to_track_transform
  optFlatMap
    (vehicleStepOps config len numChannels transform to_track_transform scene)
    historyIndices

/-- The fill operations the pedestrian renderer issues for one track. -/
def pedestrianTrackOps (config : List String) (len numChannels : Nat)
    (transform to_track_transform : Mat4) (ts_ind : Int) (track : Track) :
    Option (List FillOp) :=
  valueOps len numChannels ts_ind (transformedTrackPolygon track transform)
    (pedestrianFmValues config track to_track_transform) 0

/-- Embeds one iteration of the history loop of
`PedestrianTracksRenderer.render` (no ego track). -/
def pedestrianStepOps (config : List String) (len numChannels : Nat)
    (transform to_track_transform : Mat4) (scene : Scene) (ts_ind : Int) :
    Option (List FillOp) :=
  optFlatMap
    (pedestrianTrackOps config len numChannels transform to_track_transform ts_ind)
    (scene.past_pedestrian_tracks ts_ind)

/-- Embeds `PedestrianTracksRenderer.render` at the fill-operation level
(the code recomputes `to_feature_map_tf @ to_track_transform` inside the
track loop; the value is the same each iteration). -/
def pedestrianRender (config : List String) (historyIndices : List Int)
    (to_feature_map_tf : Mat4) (scene : Scene) (to_track_transform : Mat4) :
    Option (List FillOp) :=
  let numChannels := pedestrianNumChannels config
  let len := numChannels * historyIndices.length
  let transform := Mat4.mul to_feature_map_tf to_track_transform
  optFlatMap
    (pedestrianStepOps config len numChannels transform to_track_transform scene)
    historyIndices

/-- One entry of a `renderers` list in the configuration: a dict keyed
`vehicles` or `pedestrians` (anything else makes `_create_renderer` raise
`NotImplementedError`), mapping to the enabled attribute flags. -/
inductive RendererConfig where
  | vehicles (attrs : List String)
  | pedestrians (attrs : List String)
  | unrecognized
deriving DecidableEq

/-- A constructed single-class renderer: its attribute config and the
`_history_indices` list computed at construction. -/
inductive Renderer where
  | vehicle (config : List String) (historyIndices : List Int)
  | pedestrian (config : List String) (historyIndices : List Int)
deriving DecidableEq

/-- The `num_channels` property of a constructed renderer. -/
def Renderer.numChannels : Renderer → Nat
  | .vehicle config _ => vehicleNumChannels config
  | .pedestrian config _ => pedestrianNumChannels config

/-- The `n_history_steps` property of a constructed renderer. -/
def Renderer.nHistorySteps : Renderer → Nat
  | .vehicle _ h => h.length
  | .pedestrian _ h => h.length

/-- The number of output channels a renderer contributes to the assembled
feature map: `num_channels * n_history_steps`. -/
def Renderer.width (r : Renderer) : Nat :=
  r.numChannels * r.nHistorySteps

/-- Dispatch of `Renderer.render` on the renderer's class. -/
def Renderer.render (r : Renderer) (to_feature_map_tf : Mat4) (scene : Scene)
    (to_track_transform : Mat4) : Option (List FillOp) :=
  match r with
  | .vehicle config h =>
    vehicleRender config h to_feature_map_tf scene to_track_transform
  | .pedestrian config h =>
    pedestrianRender config h to_feature_map_tf scene to_track_transform

/-- Embeds `FeatureRenderer._create_renderer`: constructing the renderer
computes its history indices (`FeatureMapRendererBase.__init__`);
an unrecognized renderer kind raises `NotImplementedError`. -/
def createRenderer (rc : RendererConfig) (tg : TimeGrid) : Except String Renderer :=
  match rc with
  | .vehicles attrs => .ok (.vehicle attrs (historyIndices tg))
  | .pedestrians attrs => .ok (.pedestrian attrs (historyIndices tg))
  | .unrecognized => .error "NotImplementedError"

/-- One `renderers_groups` entry: a time grid and its renderer configs. -/
structure RendererGroup where
  time_grid_params : TimeGrid
  renderers : List RendererConfig
deriving DecidableEq

/-- Embeds the inner loop of `FeatureRenderer._create_renderers_list`: the
time grid is validated once per renderer config (so a group with an empty
`renderers` list is never validated). -/
def processGroupRenderers (tg : TimeGrid) :
    List RendererConfig → Except String (List Renderer)
  | [] => .ok []
  | rc :: rcs => do
    let tgOk ← validateTimeGrid tg
    let r ← createRenderer rc tgOk
    let rest ← processGroupRenderers tg rcs
    pure (r :: rest)

/-- Embeds the outer loop of `FeatureRenderer._create_renderers_list`. -/
def createRenderersList : List RendererGroup → Except String (List Renderer)
  | [] => .ok []
  | g :: gs => do
    let rs ← processGroupRenderers g.time_grid_params g.renderers
    let rest ← createRenderersList gs
    pure (rs ++ rest)

/-- The `feature_map_params` configuration entry. -/
structure FeatureMapParams where
  rows : Nat
  cols : Nat
  resolution : ℚ
deriving DecidableEq

/-- The top-level configuration handed to `FeatureRenderer.__init__`. -/
structure FeatureRendererConfig where
  feature_map_params : FeatureMapParams
  renderers_groups : List RendererGroup
deriving DecidableEq

/-- Embeds `FeatureRenderer._get_to_feature_map_transform`. -/
def toFeatureMapTransform (p : FeatureMapParams) : Mat4 :=
  let fm_scale : ℚ := 1 / p.resolution
  let fm_origin_x : ℚ := 1 / 2 * p.rows
  let fm_origin_y : ℚ := 1 / 2 * p.cols
  { a00 := fm_scale, a01 := 0, a02 := 0, a03 := fm_origin_x
    a10 := 0, a11 := fm_scale, a12 := 0, a13 := fm_origin_y
    a20 := 0, a21 := 0, a22 := 1, a23 := 0
    a30 := 0, a31 := 0, a32 := 0, a33 := 1 }

/-- The state a successfully constructed `FeatureRenderer` holds: its
feature-map params and the ordered renderer list (the stored
`_to_feature_map_tf` and `_num_channels` are recomputed on demand by
`toFeatureMapTransform` and `totalChannels`). -/
structure FeatureRendererState where
  feature_map_params : FeatureMapParams
  renderers : List Renderer
deriving DecidableEq

/-- Embeds `FeatureRenderer.__init__`: raising `ValueError` or
`NotImplementedError` during `_create_renderers_list` becomes `.error`. -/
def featureRendererInit (cfg : FeatureRendererConfig) :
    Except String FeatureRendererState := do
  let rs ← createRenderersList cfg.renderers_groups
  pure ⟨cfg.feature_map_params, rs⟩

/-- Embeds `FeatureRenderer._get_num_channels`: the total channel count of
the assembled feature map. -/
def totalChannels (st : FeatureRendererState) : Nat :=
  (st.renderers.map Renderer.width).sum

/-- The channel slices `[slice_start, slice_end)` successively computed by
`FeatureRenderer.render_features`, starting at offset `acc`. -/
def channelSlices (acc : Nat) : List Nat → List (Nat × Nat)
  | [] => []
  | w :: ws => (acc, acc + w) :: channelSlices (acc + w) ws

/-- Embeds the loop body of `FeatureRenderer.render_features`: each
renderer's fill operations, shifted into its channel slice of the output
buffer. -/
def assembleOps (to_feature_map_tf : Mat4) (scene : Scene)
    (to_track_transform : Mat4) : Nat → List Renderer → Option (List FillOp)
  | _, [] => some []
  | off, r :: rs =>
    (r.render to_feature_map_tf scene to_track_transform).bind (fun ops =>
      (assembleOps to_feature_map_tf scene to_track_transform
          (off + r.width) rs).map (fun rest =>
        ops.map (fun op => { op with channel := off + op.channel }) ++ rest))

/-- Embeds `FeatureRenderer.render_features` at the fill-operation level:
a fresh zero buffer of `totalChannels` planes, then each renderer's output
copied into its consecutive channel slice. -/
def renderFeatures (st : FeatureRendererState) (scene : Scene)
    (to_track_frame_tf : Mat4) : Option (List FillOp) :=
  assembleOps (toFeatureMapTransform st.feature_map_params) scene
    to_track_frame_tf 0 st.renderers

/-- Pairs each list element with its 0-based position, starting at `k`. -/
def withIdx (k : Nat) : List α → List (Nat × α)
  | [] => []
  | a :: l => (k, a) :: withIdx (k + 1) l

/-- Concatenation of the lists produced for each element, in order. -/
def catMap (f : α → List β) : List α → List β
  | [] => []
  | a :: l => f a ++ catMap f l

/-- Following the spec's words, the fill operations one track contributes
to the channel block of sampled step `stepIdx`: value `i` goes to channel
`stepIdx * numChannels + i`. -/
def specValueBlock (stepIdx numChannels : Nat) (poly : List (Int × Int)) :
    List ℚ → Nat → List FillOp
  | [], _ => []
  | v :: vs, i =>
    ⟨stepIdx * numChannels + i, poly, v⟩
      :: specValueBlock stepIdx numChannels poly vs (i + 1)

/-- Following the spec's words, the fill-operation sequence of one
single-class render: for each sampled historical offset, in sampler order
(`stepIdx` is its 0-based position), each track present at that offset
contributes its value vector to the per-step channel block at offset
`stepIdx * numChannels`. -/
def specClassTrace (tracksAt : Int → List Track) (values : Track → List ℚ)
    (numChannels : Nat) (transform : Mat4) (historyIndices : List Int) :
    List FillOp :=
  catMap
    (fun p =>
      catMap
        (fun t =>
          specValueBlock p.1 numChannels (transformedTrackPolygon t transform)
            (values t) 0)
        (tracksAt p.2))
    (withIdx 0 historyIndices)

/-- The claimed vehicle-render behaviour: tracks at each offset followed by
the ego track, channel blocks at `stepIdx * numChannels`. -/
def specVehicleTrace (config : List String) (historyIndices : List Int)
    (to_feature_map_tf : Mat4) (scene : Scene) (to_track_transform : Mat4) :
    List FillOp :=
  specClassTrace
    (fun ts => scene.past_vehicle_tracks ts ++ [scene.past_ego_track ts])
    (fun t => vehicleFmValues config t to_track_transform)
    (vehicleNumChannels config)
    (Mat4.mul to_feature_map_tf to_track_transform)
    historyIndices

/-- The claimed pedestrian-render behaviour. -/
def specPedestrianTrace (config : List String) (historyIndices : List Int)
    (to_feature_map_tf : Mat4) (scene : Scene) (to_track_transform : Mat4) :
    List FillOp :=
  specClassTrace
    (fun ts => scene.past_pedestrian_tracks ts)
    (fun t => pedestrianFmValues config t to_track_transform)
    (pedestrianNumChannels config)
    (Mat4.mul to_feature_map_tf to_track_transform)
    historyIndices

/-- The sampler output length claimed by the spec:
`ceil((stop - start) / step)`. -/
def specHistoryLen (tg : TimeGrid) : Nat :=
  (⌈((tg.stop - tg.start : ℚ)) / (tg.step : ℚ)⌉).toNat

/-- The fixed world-to-raster transform as written in the spec:
`[[scale,0,0,origin_x],[0,scale,0,origin_y],[0,0,1,0],[0,0,0,1]]` with
`scale = 1 / resolution`, `origin_x = 0.5 * rows`, `origin_y = 0.5 * cols`. -/
def specToFeatureMapTf (p : FeatureMapParams) : Mat4 where
  a00 := 1 / p.resolution
  a01 := 0
  a02 := 0
  a03 := 1 / 2 * p.rows
  a10 := 0
  a11 := 1 / p.resolution
  a12 := 0
  a13 := 1 / 2 * p.cols
  a20 := 0
  a21 := 0
  a22 := 1
  a23 := 0
  a30 := 0
  a31 := 0
  a32 := 0
  a33 := 1

/-- The per-track value vector claimed by the spec sentence behind claim
C5: occupancy `1.0`, then velocity and acceleration transformed by the
linear part of the composed world-to-raster transform
`to_feature_map_tf @ to_track_transform`, then the raw yaw. -/
def specC5Values (config : List String) (track : Track)
    (to_feature_map_tf to_track_transform : Mat4) : List ℚ :=
  let composed := Mat4.mul to_feature_map_tf to_track_transform
  (if "occupancy" ∈ config then [(1 : ℚ)] else [])
    ++ (if "velocity" ∈ config then
          [(linearApply composed track.velocity).1,
           (linearApply composed track.velocity).2] else [])
    ++ (if "acceleration" ∈ config then
          [(linearApply composed track.acceleration).1,
           (linearApply composed track.acceleration).2] else [])
    ++ (if "yaw" ∈ config then [track.yaw] else [])

lemma pyRange_length (a b s : Int) : (pyRange a b s).length = pyRangeLen a b s := by
  simp [pyRange]

lemma mem_pyRange {a b s x : Int} :
    x ∈ pyRange a b s ↔ ∃ k : Nat, k < pyRangeLen a b s ∧ x = a + s * k := by
  simp only [pyRange, List.mem_map, List.mem_range]
  constructor
  · rintro ⟨k, hk, rfl⟩
    exact ⟨k, hk, rfl⟩
  · rintro ⟨k, hk, rfl⟩
    exact ⟨k, hk, rfl⟩

lemma toNat_div_cast {N S : Int} (hN : 0 ≤ N) (hS : 0 < S) :
    ∃ r : Int, 0 ≤ r ∧ r < S ∧ N = S * (N.toNat / S.toNat : Nat) + r := by
  refine ⟨(N.toNat % S.toNat : Nat), by positivity, ?_, ?_⟩
  · have h := Nat.mod_lt N.toNat (show 0 < S.toNat by omega)
    omega
  · have h := Nat.div_add_mod N.toNat S.toNat
    have e1 : ((N.toNat : Int)) = N := Int.toNat_of_nonneg hN
    have e2 : ((S.toNat : Int)) = S := Int.toNat_of_nonneg hS.le
    have h' : ((S.toNat : Int)) * ((N.toNat / S.toNat : Nat) : Int)
        + ((N.toNat % S.toNat : Nat) : Int) = ((N.toNat : Int)) := by
      exact_mod_cast h
    rw [e1, e2] at h'
    linarith

/-- For a positive divisor, the integer formula `(x + s - 1) / s` (with
truncation of a negative numerator to zero) computes `ceil(x / s)`. -/
lemma toNat_div_eq_ceil {x s : Int} (hs : 0 < s) (hx : 0 ≤ x) :
    ((x + s - 1).toNat / s.toNat : Nat) = (⌈(x : ℚ) / (s : ℚ)⌉).toNat := by
  have hsQ : (0 : ℚ) < (s : ℚ) := by exact_mod_cast hs
  obtain ⟨r, hr0, hrS, hkey⟩ := toNat_div_cast (show 0 ≤ x + s - 1 by omega) hs
  set q : Nat := (x + s - 1).toNat / s.toNat with hq
  have hup : x ≤ s * q := by linarith
  have hlo : s * q - s < x := by linarith
  have hceil : ⌈(x : ℚ) / (s : ℚ)⌉ = (q : Int) := by
    rw [Int.ceil_eq_iff]
    constructor
    · rw [lt_div_iff₀ hsQ]
      have e : ((q : Int) - 1) * s = s * (q : Int) - s := by ring
      have h1 : ((q : Int) - 1) * s < x := by linarith
      exact_mod_cast h1
    · rw [div_le_iff₀ hsQ]
      have h2 : x ≤ (q : Int) * s := by linarith
      exact_mod_cast h2
  rw [hceil, Int.toNat_natCast]

lemma pyRange_elt_lt {a b s : Int} (hs : 0 < s) {x : Int} (hx : x ∈ pyRange a b s) :
    x < b := by
  rw [mem_pyRange] at hx
  obtain ⟨k, hk, rfl⟩ := hx
  rw [pyRangeLen, if_pos hs] at hk
  rcases le_or_lt 0 (b - a + s - 1) with hN | hN
  · have h1 : (k + 1) * s.toNat ≤ (b - a + s - 1).toNat / s.toNat * s.toNat :=
      Nat.mul_le_mul_right _ hk
    have h2 : (b - a + s - 1).toNat / s.toNat * s.toNat ≤ (b - a + s - 1).toNat :=
      Nat.div_mul_le_self _ _
    have h3 : ((k : Int) + 1) * s ≤ b - a + s - 1 := by
      have := le_trans h1 h2
      have e1 : ((b - a + s - 1).toNat : Int) = b - a + s - 1 := Int.toNat_of_nonneg hN
      have e2 : ((s.toNat : Int)) = s := Int.toNat_of_nonneg hs.le
      calc ((k : Int) + 1) * s = (((k + 1) * s.toNat : Nat) : Int) := by push_cast [e2]; ring
      _ ≤ (((b - a + s - 1).toNat : Nat) : Int) := by exact_mod_cast this
      _ = b - a + s - 1 := e1
    have e3 : ((k : Int) + 1) * s = s * k + s := by ring
    linarith
  · exfalso
    have : (b - a + s - 1).toNat = 0 := by omega
    rw [this, Nat.zero_div] at hk
    omega

lemma pyRange_pairwise {a b s : Int} (hs : 0 < s) :
    (pyRange a b s).Pairwise (fun x y => x < y) := by
  rw [pyRange]
  rw [List.pairwise_map]
  refine (List.pairwise_lt_range _).imp ?_
  intro i j hij
  have h : s * (i : Int) < s * (j : Int) := by
    have hc : (i : Int) < (j : Int) := by exact_mod_cast hij
    exact mul_lt_mul_of_pos_left hc hs
  exact add_lt_add_left h a

lemma historyIndices_length {tg : TimeGrid} (hstep : 0 < tg.step) :
    (historyIndices tg).length
      = (tg.stop - tg.start + tg.step).toNat / tg.step.toNat := by
  rw [historyIndices, pyRange_length, pyRangeLen, if_pos hstep]
  congr 2
  ring

/-- A concrete track used by the closed witness and counterexample
instances. -/
def exTrack : Track where
  polygon := [(0, 0), (4, 0), (4, 4), (0, 4)]
  yaw := 3
  velocity := (1, 0)
  acceleration := (0, 1)

/-- A concrete scene used by the closed witness and counterexample
instances. -/
def exScene : Scene where
  past_vehicle_tracks := fun _ => [exTrack]
  past_pedestrian_tracks := fun _ => []
  past_ego_track := fun _ => exTrack

/-- The identity transform. -/
def exIdentity : Mat4 where
  a00 := 1
  a01 := 0
  a02 := 0
  a03 := 0
  a10 := 0
  a11 := 1
  a12 := 0
  a13 := 0
  a20 := 0
  a21 := 0
  a22 := 1
  a23 := 0
  a30 := 0
  a31 := 0
  a32 := 0
  a33 := 1

/-- A transform scaling x and y by 2 (a feature-map transform with
resolution one half and zero origin). -/
def exScale2 : Mat4 where
  a00 := 2
  a01 := 0
  a02 := 0
  a03 := 0
  a10 := 0
  a11 := 2
  a12 := 0
  a13 := 0
  a20 := 0
  a21 := 0
  a22 := 1
  a23 := 0
  a30 := 0
  a31 := 0
  a32 := 0
  a33 := 1

/-- Concrete feature-map geometry used by witnesses. -/
def exParams : FeatureMapParams where
  rows := 128
  cols := 128
  resolution := 1

/-- A concrete constructed feature-renderer state used by witnesses. -/
def exState : FeatureRendererState where
  feature_map_params := exParams
  renderers := [.vehicle ["occupancy"] (historyIndices ⟨0, 0, 1⟩)]

/-- Claim C2, counterexample: the time grid `{start: 0, stop: 0, step: 1}`
is accepted by validation, and the sampler output `[-1]` has length 1,
while the claimed formula `ceil((stop - start) / step)` yields 0. -/
theorem C2_sampler_counterexample :
    validateTimeGrid ⟨0, 0, 1⟩ = .ok ⟨0, 0, 1⟩
      ∧ (historyIndices ⟨0, 0, 1⟩).length = 1
      ∧ specHistoryLen ⟨0, 0, 1⟩ = 0 := by
  refine ⟨rfl, by decide, ?_⟩
  norm_num [specHistoryLen]

/-- Claim C2 (amended): for every valid time-grid spec the history
sampler's output has length `ceil((stop - start + 1) / step)` (the claimed
`ceil((stop - start) / step)` is off by one step), and it is strictly
monotonically increasing with every element negative. -/
theorem C2_sampler_amended (tg : TimeGrid) (h0 : 0 ≤ tg.start)
    (h1 : tg.start ≤ tg.stop) (h2 : tg.stop ≤ 24) (h3 : 0 < tg.step) :
    (historyIndices tg).length
        = (⌈(((tg.stop - tg.start + 1 : Int)) : ℚ) / ((tg.step : Int) : ℚ)⌉).toNat
      ∧ (historyIndices tg).Pairwise (fun x y => x < y)
      ∧ ∀ x ∈ historyIndices tg, x < 0 := by
  refine ⟨?_, pyRange_pairwise h3, ?_⟩
  · have e : tg.stop - tg.start + tg.step = tg.stop - tg.start + 1 + tg.step - 1 := by
      ring
    rw [historyIndices_length h3, e]
    exact toNat_div_eq_ceil h3 (by omega)
  · intro x hx
    have hb := pyRange_elt_lt h3 hx
    omega

/-- Closed witness for `C2_sampler_amended` at `{start: 0, stop: 2, step: 2}`. -/
theorem C2_sampler_witness :
    ((0 : Int) ≤ 0 ∧ (0 : Int) ≤ 2 ∧ (2 : Int) ≤ 24 ∧ (0 : Int) < 2)
      ∧ ((historyIndices ⟨0, 2, 2⟩).length
            = (⌈(((2 - 0 + 1 : Int)) : ℚ) / (((2 : Int)) : ℚ)⌉).toNat
          ∧ (historyIndices ⟨0, 2, 2⟩).Pairwise (fun x y => x < y)
          ∧ ∀ x ∈ historyIndices ⟨0, 2, 2⟩, x < 0) :=
  ⟨⟨by decide, by decide, by decide, by decide⟩,
   C2_sampler_amended ⟨0, 2, 2⟩ (by decide) (by decide) (by decide) (by decide)⟩

/-- Claim C4: for every enabled-attribute configuration of either agent
class and every track and transform, the per-track channel value vector
has length equal to the renderer's computed channel count. -/
theorem C4_values_length (config : List String) (t : Track) (ttf : Mat4) :
    (vehicleFmValues config t ttf).length = vehicleNumChannels config
      ∧ (pedestrianFmValues config t ttf).length = pedestrianNumChannels config := by
  constructor <;>
    · simp only [vehicleFmValues, vehicleNumChannels, pedestrianFmValues,
        pedestrianNumChannels, List.length_append]
      split_ifs <;> simp

/-- Claim C7: rendering is deterministic — for a fixed constructed
configuration, equal scene and track-frame-transform inputs produce equal
outputs. -/
theorem C7_deterministic (st : FeatureRendererState) (scene scene' : Scene)
    (ttf ttf' : Mat4) (h1 : scene = scene') (h2 : ttf = ttf') :
    renderFeatures st scene ttf = renderFeatures st scene' ttf' := by
  rw [h1, h2]

/-- Closed witness for `C7_deterministic` on a concrete configuration,
scene and transform. -/
theorem C7_deterministic_witness :
    renderFeatures exState exScene exIdentity
      = renderFeatures exState exScene exIdentity :=
  C7_deterministic exState exScene exScene exIdentity exIdentity rfl rfl

/-- Claim C8: for every raster geometry with nonzero resolution, the fixed
world-to-raster transform computed at construction is exactly the matrix
the spec writes down. -/
theorem C8_to_feature_map_transform (p : FeatureMapParams)
    (h : p.resolution ≠ 0) :
    toFeatureMapTransform p = specToFeatureMapTf p := rfl

/-- Closed witness for `C8_to_feature_map_transform` at
`{rows: 128, cols: 128, resolution: 1}`. -/
theorem C8_to_feature_map_transform_witness :
    ((1 : ℚ) ≠ 0)
      ∧ toFeatureMapTransform exParams = specToFeatureMapTf exParams :=
  ⟨one_ne_zero, C8_to_feature_map_transform exParams one_ne_zero⟩

/-- Claim C10: attribute flags outside a renderer's per-class recognized
set are silently ignored.  The recognized set is per class: for
pedestrians only occupancy and velocity, so a flag such as acceleration
or yaw is unrecognized there.  Adding a flag outside the class's
recognized set changes neither channel count nor value vector, and a
configuration containing none of the class's recognized flags yields zero
channels and an empty value vector (no error path exists). -/
theorem C10_unrecognized_flags (config : List String) (t : Track) (ttf : Mat4)
    (x : String) (hocc : x ≠ "occupancy") (hvel : x ≠ "velocity") :
    (pedestrianNumChannels (x :: config) = pedestrianNumChannels config
      ∧ pedestrianFmValues (x :: config) t ttf = pedestrianFmValues config t ttf)
    ∧ (("occupancy" ∉ config ∧ "velocity" ∉ config) →
        pedestrianNumChannels config = 0
          ∧ pedestrianFmValues config t ttf = [])
    ∧ (x ≠ "acceleration" → x ≠ "yaw" →
        vehicleNumChannels (x :: config) = vehicleNumChannels config
          ∧ vehicleFmValues (x :: config) t ttf = vehicleFmValues config t ttf)
    ∧ (("occupancy" ∉ config ∧ "velocity" ∉ config ∧ "acceleration" ∉ config
          ∧ "yaw" ∉ config) →
        vehicleNumChannels config = 0
          ∧ vehicleFmValues config t ttf = []) := by
  refine ⟨⟨?_, ?_⟩, ?_, ?_, ?_⟩
  · simp [pedestrianNumChannels, List.mem_cons, Ne.symm hocc, Ne.symm hvel]
  · simp [pedestrianFmValues, List.mem_cons, Ne.symm hocc, Ne.symm hvel]
  · rintro ⟨m1, m2⟩
    simp [pedestrianNumChannels, pedestrianFmValues, m1, m2]
  · intro hacc hyaw
    constructor <;>
      simp [vehicleNumChannels, vehicleFmValues, List.mem_cons, Ne.symm hocc,
        Ne.symm hvel, Ne.symm hacc, Ne.symm hyaw]
  · rintro ⟨m1, m2, m3, m4⟩
    simp [vehicleNumChannels, vehicleFmValues, m1, m2, m3, m4]

/-- Closed witness for `C10_unrecognized_flags` with the flag `"yaw"`,
which is vehicle-recognized but pedestrian-unrecognized, over a config
holding only `"acceleration"` (also pedestrian-unrecognized). -/
theorem C10_unrecognized_flags_witness :
    (("yaw" : String) ≠ "occupancy" ∧ ("yaw" : String) ≠ "velocity")
    ∧ ((pedestrianNumChannels ["yaw", "acceleration"]
          = pedestrianNumChannels ["acceleration"]
        ∧ pedestrianFmValues ["yaw", "acceleration"] exTrack exIdentity
          = pedestrianFmValues ["acceleration"] exTrack exIdentity)
      ∧ (("occupancy" ∉ ["acceleration"] ∧ "velocity" ∉ ["acceleration"]) →
          pedestrianNumChannels ["acceleration"] = 0
            ∧ pedestrianFmValues ["acceleration"] exTrack exIdentity = [])
      ∧ (("yaw" : String) ≠ "acceleration" → ("yaw" : String) ≠ "yaw" →
          vehicleNumChannels ["yaw", "acceleration"]
            = vehicleNumChannels ["acceleration"]
          ∧ vehicleFmValues ["yaw", "acceleration"] exTrack exIdentity
            = vehicleFmValues ["acceleration"] exTrack exIdentity)
      ∧ (("occupancy" ∉ ["acceleration"] ∧ "velocity" ∉ ["acceleration"]
            ∧ "acceleration" ∉ ["acceleration"] ∧ "yaw" ∉ ["acceleration"]) →
          vehicleNumChannels ["acceleration"] = 0
            ∧ vehicleFmValues ["acceleration"] exTrack exIdentity = [])) :=
  ⟨⟨by decide, by decide⟩,
   C10_unrecognized_flags ["acceleration"] exTrack exIdentity "yaw"
     (by decide) (by decide)⟩

@[simp] lemma exceptBind_ok (a : α) (f : α → Except ε β) :
    (Except.ok a >>= f : Except ε β) = f a := rfl

@[simp] lemma exceptBind_error (e : ε) (f : α → Except ε β) :
    (Except.error e >>= f : Except ε β) = .error e := rfl

@[simp] lemma exceptPure_eq (a : α) : (pure a : Except ε α) = .ok a := rfl

lemma channelSlices_bounds (ws : List Nat) :
    ∀ (acc : Nat) (p : Nat × Nat), p ∈ channelSlices acc ws →
      acc ≤ p.1 ∧ p.1 ≤ p.2 ∧ p.2 ≤ acc + ws.sum := by
  induction ws with
  | nil => simp [channelSlices]
  | cons w ws ih =>
    intro acc p hp
    rw [channelSlices] at hp
    rcases List.mem_cons.mp hp with rfl | hp
    · simp
    · have h := ih (acc + w) p hp
      simp [List.sum_cons]
      omega

lemma channelSlices_ordered (ws : List Nat) :
    ∀ acc : Nat, (channelSlices acc ws).Pairwise (fun p q => p.2 ≤ q.1) := by
  induction ws with
  | nil => intro acc; simp [channelSlices]
  | cons w ws ih =>
    intro acc
    rw [channelSlices]
    refine List.Pairwise.cons ?_ (ih (acc + w))
    intro q hq
    exact (channelSlices_bounds ws (acc + w) q hq).1

lemma channelSlices_cover (ws : List Nat) :
    ∀ (acc x : Nat), (acc ≤ x ∧ x < acc + ws.sum)
      ↔ ∃ p ∈ channelSlices acc ws, p.1 ≤ x ∧ x < p.2 := by
  induction ws with
  | nil => intro acc x; simp [channelSlices]
  | cons w ws ih =>
    intro acc x
    constructor
    · rintro ⟨hl, hr⟩
      by_cases hx : x < acc + w
      · exact ⟨(acc, acc + w), by rw [channelSlices]; exact List.mem_cons_self _ _,
          hl, hx⟩
      · have hr' : acc + w ≤ x ∧ x < acc + w + ws.sum := by
          simp [List.sum_cons] at hr
          omega
        obtain ⟨p, hp, hpx⟩ := (ih (acc + w) x).mp hr'
        exact ⟨p, by rw [channelSlices]; exact List.mem_cons_of_mem _ hp, hpx⟩
    · rintro ⟨p, hp, hpx⟩
      rw [channelSlices] at hp
      rcases List.mem_cons.mp hp with rfl | hp
      · simp at hpx
        simp [List.sum_cons]
        omega
      · have h := (ih (acc + w) x).mpr ⟨p, hp, hpx⟩
        simp [List.sum_cons]
        omega

/-- Claim C6: the channel slices `render_features` assigns to the
configured renderers, in configuration order, are pairwise disjoint and
together exactly cover `[0, total_channels)` where `total_channels` is the
sum of `num_channels * n_history_steps` over the renderers. -/
theorem C6_slices_partition (st : FeatureRendererState) :
    (channelSlices 0 (st.renderers.map Renderer.width)).Pairwise
        (fun p q => ∀ x : Nat, p.1 ≤ x ∧ x < p.2 → ¬(q.1 ≤ x ∧ x < q.2))
      ∧ ∀ x : Nat, x < totalChannels st
          ↔ ∃ p ∈ channelSlices 0 (st.renderers.map Renderer.width),
              p.1 ≤ x ∧ x < p.2 := by
  constructor
  · refine (channelSlices_ordered _ 0).imp ?_
    intro p q hpq x hx
    omega
  · intro x
    have h := channelSlices_cover (st.renderers.map Renderer.width) 0 x
    rw [totalChannels]
    constructor
    · intro hx
      exact h.mp ⟨Nat.zero_le _, by omega⟩
    · intro he
      have hc := h.mpr he
      omega

lemma validateTimeGrid_error {tg : TimeGrid}
    (h : tg.start < 0 ∨ tg.stop < 0 ∨ tg.start > tg.stop ∨ 25 ≤ tg.stop) :
    ∃ e, validateTimeGrid tg = .error e := by
  unfold validateTimeGrid MAX_HISTORY_LENGTH
  split_ifs with h1 h2 h3 h4
  · exact ⟨_, rfl⟩
  · exact ⟨_, rfl⟩
  · exact ⟨_, rfl⟩
  · exact ⟨_, rfl⟩
  · exfalso
    omega

lemma processGroupRenderers_error {tg : TimeGrid} {rcs : List RendererConfig}
    (hne : rcs ≠ [])
    (h : tg.start < 0 ∨ tg.stop < 0 ∨ tg.start > tg.stop ∨ 25 ≤ tg.stop) :
    ∃ e, processGroupRenderers tg rcs = .error e := by
  cases rcs with
  | nil => exact absurd rfl hne
  | cons rc rcs =>
    obtain ⟨e, he⟩ := validateTimeGrid_error h
    refine ⟨e, ?_⟩
    simp [processGroupRenderers, he]

lemma createRenderersList_error {gs : List RendererGroup}
    (h : ∃ g ∈ gs, g.renderers ≠ []
      ∧ (g.time_grid_params.start < 0 ∨ g.time_grid_params.stop < 0
          ∨ g.time_grid_params.start > g.time_grid_params.stop
          ∨ 25 ≤ g.time_grid_params.stop)) :
    ∃ e, createRenderersList gs = .error e := by
  induction gs with
  | nil => simp at h
  | cons g gs ih =>
    rcases h with ⟨g', hg', hne, hbad⟩
    rcases List.mem_cons.mp hg' with rfl | hmem
    · obtain ⟨e, he⟩ := processGroupRenderers_error hne hbad
      refine ⟨e, ?_⟩
      simp [createRenderersList, he]
    · cases hpr : processGroupRenderers g.time_grid_params g.renderers with
      | error e =>
        refine ⟨e, ?_⟩
        simp [createRenderersList, hpr]
      | ok rs =>
        obtain ⟨e, he⟩ := ih ⟨g', hmem, hne, hbad⟩
        refine ⟨e, ?_⟩
        simp [createRenderersList, hpr, he]

/-- The configuration exhibiting the hole in claim C3: one renderer group
whose time grid has `start > stop` but whose `renderers` list is empty. -/
def exBadEmptyGroupConfig : FeatureRendererConfig where
  feature_map_params := exParams
  renderers_groups := [⟨⟨1, 0, 1⟩, []⟩]

/-- A configuration with an invalid time grid on a nonempty renderer
group, used by the witness of the amended claim C3. -/
def exBadNonemptyGroupConfig : FeatureRendererConfig where
  feature_map_params := exParams
  renderers_groups := [⟨⟨1, 0, 1⟩, [.vehicles ["occupancy"]]⟩]

/-- Claim C3, counterexample: a configuration whose only renderer group
has the invalid time grid `{start: 1, stop: 0, step: 1}` (`start > stop`)
but an empty `renderers` list; `_create_renderers_list` validates inside
the per-renderer loop, so construction succeeds instead of raising. -/
theorem C3_construction_counterexample :
    ((⟨1, 0, 1⟩ : TimeGrid).start > (⟨1, 0, 1⟩ : TimeGrid).stop)
      ∧ ∃ st, featureRendererInit exBadEmptyGroupConfig = .ok st :=
  ⟨by decide, ⟨⟨exParams, []⟩, rfl⟩⟩

/-- Claim C3 (amended): for every configuration in which some renderer
group with a nonempty `renderers` list has a time grid with `start < 0`,
`stop < 0`, `start > stop` or `stop >= 25`, `FeatureRenderer` construction
raises a configuration error before any render call (groups with an empty
renderer list are never validated). -/
theorem C3_construction_error (cfg : FeatureRendererConfig)
    (h : ∃ g ∈ cfg.renderers_groups, g.renderers ≠ []
      ∧ (g.time_grid_params.start < 0 ∨ g.time_grid_params.stop < 0
          ∨ g.time_grid_params.start > g.time_grid_params.stop
          ∨ 25 ≤ g.time_grid_params.stop)) :
    ∃ e, featureRendererInit cfg = .error e := by
  obtain ⟨e, he⟩ := createRenderersList_error h
  refine ⟨e, ?_⟩
  simp [featureRendererInit, he]

/-- Closed witness for `C3_construction_error`: a single group with
`start = 1 > 0 = stop` and one vehicle renderer. -/
theorem C3_construction_error_witness :
    ∃ e, featureRendererInit exBadNonemptyGroupConfig = .error e :=
  C3_construction_error exBadNonemptyGroupConfig
    ⟨⟨⟨1, 0, 1⟩, [.vehicles ["occupancy"]]⟩, by simp [exBadNonemptyGroupConfig],
      by simp, by decide⟩

/-- Claim C9: time-grid validation never inspects `step`.  For every
time-grid spec within bounds but with a negative `step`, validation
passes, the history-index list is empty, and a renderer constructed from
it contributes zero output channels. -/
theorem C9_negative_step (tg : TimeGrid) (h0 : 0 ≤ tg.start)
    (h1 : tg.start ≤ tg.stop) (h2 : tg.stop ≤ 24) (h3 : tg.step < 0)
    (params : FeatureMapParams) (rc : RendererConfig)
    (hrc : rc ≠ .unrecognized) :
    validateTimeGrid tg = .ok tg
      ∧ historyIndices tg = []
      ∧ ∃ r : Renderer,
          featureRendererInit ⟨params, [⟨tg, [rc]⟩]⟩ = .ok ⟨params, [r]⟩
            ∧ r.nHistorySteps = 0 ∧ r.width = 0 := by
  have hval : validateTimeGrid tg = .ok tg := by
    unfold validateTimeGrid MAX_HISTORY_LENGTH
    split_ifs with a1 a2 a3 a4
    · omega
    · omega
    · omega
    · omega
    · rfl
  have hlen : pyRangeLen (-tg.stop - 1) (-tg.start) tg.step = 0 := by
    rw [pyRangeLen, if_neg (by omega), if_pos h3]
    apply Nat.div_eq_of_lt
    omega
  have hhist : historyIndices tg = [] := by
    rw [historyIndices, pyRange, hlen]
    rfl
  refine ⟨hval, hhist, ?_⟩
  cases rc with
  | vehicles attrs =>
    refine ⟨.vehicle attrs [], ?_, rfl, ?_⟩
    · simp [featureRendererInit, createRenderersList, processGroupRenderers,
        hval, createRenderer, hhist]
    · simp [Renderer.width, Renderer.nHistorySteps]
  | pedestrians attrs =>
    refine ⟨.pedestrian attrs [], ?_, rfl, ?_⟩
    · simp [featureRendererInit, createRenderersList, processGroupRenderers,
        hval, createRenderer, hhist]
    · simp [Renderer.width, Renderer.nHistorySteps]
  | unrecognized => exact absurd rfl hrc

/-- Closed witness for `C9_negative_step` at `{start: 0, stop: 0, step: -1}`
with a vehicle occupancy renderer. -/
theorem C9_negative_step_witness :
    validateTimeGrid ⟨0, 0, -1⟩ = .ok ⟨0, 0, -1⟩
      ∧ historyIndices ⟨0, 0, -1⟩ = []
      ∧ ∃ r : Renderer,
          featureRendererInit ⟨exParams, [⟨⟨0, 0, -1⟩, [.vehicles ["occupancy"]]⟩]⟩
              = .ok ⟨exParams, [r]⟩
            ∧ r.nHistorySteps = 0 ∧ r.width = 0 :=
  C9_negative_step ⟨0, 0, -1⟩ (by decide) (by decide) (by decide) (by decide)
    exParams (.vehicles ["occupancy"]) (by decide)

/-- Claim C5, counterexample: with a feature-map transform scaling by 2
(resolution one half) and an identity track transform, the claim predicts
the velocity channels `(2, 0)` (linear part of the composed transform
applied to the velocity `(1, 0)`), but `_get_fm_values` passes only
`to_track_transform` to the velocity helper and produces `(1, 0)`. -/
theorem C5_values_counterexample :
    vehicleFmValues ["velocity"] exTrack exIdentity
      ≠ specC5Values ["velocity"] exTrack exScale2 exIdentity := by
  simp [vehicleFmValues, specC5Values, get_transformed_velocity, linearApply,
    Mat4.mul, exTrack, exScale2, exIdentity]

/-- Claim C5 (amended): the channel value vector is 1.0 for occupancy,
velocity and acceleration transformed by the linear part of the supplied
track-frame transform alone (not of the composed world-to-raster
transform), and the raw untransformed yaw; same for pedestrians. -/
theorem C5_values_amended (config : List String) (t : Track) (ttf : Mat4) :
    vehicleFmValues config t ttf
        = (if "occupancy" ∈ config then [(1 : ℚ)] else [])
          ++ (if "velocity" ∈ config then
                [(linearApply ttf t.velocity).1, (linearApply ttf t.velocity).2]
              else [])
          ++ (if "acceleration" ∈ config then
                [(linearApply ttf t.acceleration).1,
                 (linearApply ttf t.acceleration).2]
              else [])
          ++ (if "yaw" ∈ config then [t.yaw] else [])
      ∧ pedestrianFmValues config t ttf
        = (if "occupancy" ∈ config then [(1 : ℚ)] else [])
          ++ (if "velocity" ∈ config then
                [(linearApply ttf t.velocity).1, (linearApply ttf t.velocity).2]
              else []) :=
  ⟨rfl, rfl⟩

lemma catMap_append (g : α → List β) (l1 l2 : List α) :
    catMap g (l1 ++ l2) = catMap g l1 ++ catMap g l2 := by
  induction l1 with
  | nil => rfl
  | cons a l ih => simp [catMap, ih]

lemma optFlatMap_eq_catMap {f : α → Option (List β)} {g : α → List β}
    {l : List α} (h : ∀ a ∈ l, f a = some (g a)) :
    optFlatMap f l = some (catMap g l) := by
  induction l with
  | nil => rfl
  | cons a l ih =>
    have ha := h a (List.mem_cons_self a l)
    have hl := ih (fun x hx => h x (List.mem_cons_of_mem a hx))
    simp [optFlatMap, catMap, ha, hl]

lemma optFlatMap_withIdx {f : α → Option (List β)} {g : Nat × α → List β} :
    ∀ (l : List α) (k0 : Nat),
      (∀ p ∈ withIdx k0 l, f p.2 = some (g p)) →
      optFlatMap f l = some (catMap g (withIdx k0 l)) := by
  intro l
  induction l with
  | nil => intro k0 _; rfl
  | cons a l ih =>
    intro k0 h
    have ha := h (k0, a) (by rw [withIdx]; exact List.mem_cons_self _ _)
    have hl := ih (k0 + 1)
      (fun p hp => h p (by rw [withIdx]; exact List.mem_cons_of_mem _ hp))
    simp [optFlatMap, withIdx, catMap, ha, hl]

lemma mem_withIdx {l : List α} :
    ∀ {k : Nat} {p : Nat × α}, p ∈ withIdx k l →
      ∃ j : Nat, j < l.length ∧ p.1 = k + j ∧ l[j]? = some p.2 := by
  induction l with
  | nil => intro k p hp; simp [withIdx] at hp
  | cons a l ih =>
    intro k p hp
    rw [withIdx] at hp
    rcases List.mem_cons.mp hp with rfl | hp
    · exact ⟨0, by simp, by simp, by simp⟩
    · obtain ⟨j, hj, h1, h2⟩ := ih hp
      exact ⟨j + 1, by simpa using hj, by omega, by simpa using h2⟩

lemma mem_withIdx_pyRange {a b s : Int} {p : Nat × Int}
    (hp : p ∈ withIdx 0 (pyRange a b s)) :
    p.1 < pyRangeLen a b s ∧ p.2 = a + s * p.1 := by
  obtain ⟨j, hj, h1, h2⟩ := mem_withIdx hp
  rw [pyRange, List.length_map, List.length_range] at hj
  rw [pyRange, List.getElem?_map, List.getElem?_range hj] at h2
  have h3 : a + s * (j : Int) = p.2 := by
    simpa using h2
  refine ⟨by omega, ?_⟩
  rw [h1]
  simpa using h3.symm

lemma vehicleFmValues_length (config : List String) (t : Track) (ttf : Mat4) :
    (vehicleFmValues config t ttf).length = vehicleNumChannels config := by
  simp only [vehicleFmValues, vehicleNumChannels, List.length_append]
  split_ifs <;> simp

lemma pedestrianFmValues_length (config : List String) (t : Track) (ttf : Mat4) :
    (pedestrianFmValues config t ttf).length = pedestrianNumChannels config := by
  simp only [pedestrianFmValues, pedestrianNumChannels, List.length_append]
  split_ifs <;> simp

lemma valueOps_dense {C n k : Nat} (hk : k < n) (poly : List (Int × Int)) :
    ∀ (vs : List ℚ) (i : Nat), i + vs.length ≤ C →
      valueOps (C * n) C ((k : Int) - (n : Int)) poly vs i
        = some (specValueBlock k C poly vs i) := by
  intro vs
  induction vs with
  | nil => intro i _; rfl
  | cons v vs ih =>
    intro i h
    have hlen : i + (vs.length + 1) ≤ C := by simpa using h
    have hC : 0 < C := by omega
    have hCnn : (0 : Int) ≤ (C : Int) := by exact_mod_cast Nat.zero_le C
    have hneg : ((k : Int) - n) * C + i < 0 := by
      have h1 : (k : Int) - n ≤ -1 := by omega
      have h2 : ((k : Int) - n) * C ≤ (-1) * C :=
        mul_le_mul_of_nonneg_right h1 hCnn
      have h3 : (i : Int) ≤ (C : Int) - 1 := by omega
      linarith
    have hge : -(((C * n : Nat) : Int)) ≤ ((k : Int) - n) * C + i := by
      have h1 : (-(n : Int)) ≤ (k : Int) - n := by omega
      have h2 : (-(n : Int)) * C ≤ ((k : Int) - n) * C :=
        mul_le_mul_of_nonneg_right h1 hCnn
      have h3 : (-(n : Int)) * C = -(((C * n : Nat) : Int)) := by push_cast; ring
      have h4 : (0 : Int) ≤ (i : Int) := by exact_mod_cast Nat.zero_le i
      linarith
    have hres : resolveIndex (C * n) (((k : Int) - n) * C + i) = some (k * C + i) := by
      rw [resolveIndex, if_neg (not_le.mpr hneg), if_pos hge]
      have he : ((k : Int) - n) * C + i + ((C * n : Nat) : Int)
          = ((k * C + i : Nat) : Int) := by push_cast; ring
      rw [he, Int.toNat_natCast]
    simp only [valueOps, specValueBlock]
    rw [hres]
    simp [ih (i + 1) (by omega)]

lemma vehicleStepOps_dense (config : List String) (transform ttf : Mat4)
    (scene : Scene) {n k : Nat} (hk : k < n) :
    vehicleStepOps config (vehicleNumChannels config * n)
        (vehicleNumChannels config) transform ttf scene ((k : Int) - n)
      = some (catMap
          (fun t => specValueBlock k (vehicleNumChannels config)
            (transformedTrackPolygon t transform)
            (vehicleFmValues config t ttf) 0)
          (scene.past_vehicle_tracks ((k : Int) - n)
            ++ [scene.past_ego_track ((k : Int) - n)])) := by
  have htr : ∀ t ∈ scene.past_vehicle_tracks ((k : Int) - n),
      vehicleTrackOps config (vehicleNumChannels config * n)
          (vehicleNumChannels config) transform ttf ((k : Int) - n) t
        = some (specValueBlock k (vehicleNumChannels config)
            (transformedTrackPolygon t transform)
            (vehicleFmValues config t ttf) 0) :=
    fun t _ => valueOps_dense hk _ _ 0
      (by rw [vehicleFmValues_length]; omega)
  have hego : vehicleTrackOps config (vehicleNumChannels config * n)
      (vehicleNumChannels config) transform ttf ((k : Int) - n)
      (scene.past_ego_track ((k : Int) - n))
    = some (specValueBlock k (vehicleNumChannels config)
        (transformedTrackPolygon (scene.past_ego_track ((k : Int) - n)) transform)
        (vehicleFmValues config (scene.past_ego_track ((k : Int) - n)) ttf) 0) :=
    valueOps_dense hk _ _ 0 (by rw [vehicleFmValues_length]; omega)
  simp only [vehicleStepOps]
  rw [optFlatMap_eq_catMap htr]
  simp [hego, catMap_append, catMap]

lemma pedestrianStepOps_dense (config : List String) (transform ttf : Mat4)
    (scene : Scene) {n k : Nat} (hk : k < n) :
    pedestrianStepOps config (pedestrianNumChannels config * n)
        (pedestrianNumChannels config) transform ttf scene ((k : Int) - n)
      = some (catMap
          (fun t => specValueBlock k (pedestrianNumChannels config)
            (transformedTrackPolygon t transform)
            (pedestrianFmValues config t ttf) 0)
          (scene.past_pedestrian_tracks ((k : Int) - n))) := by
  have htr : ∀ t ∈ scene.past_pedestrian_tracks ((k : Int) - n),
      pedestrianTrackOps config (pedestrianNumChannels config * n)
          (pedestrianNumChannels config) transform ttf ((k : Int) - n) t
        = some (specValueBlock k (pedestrianNumChannels config)
            (transformedTrackPolygon t transform)
            (pedestrianFmValues config t ttf) 0) :=
    fun t _ => valueOps_dense hk _ _ 0
      (by rw [pedestrianFmValues_length]; omega)
  simp only [pedestrianStepOps]
  rw [optFlatMap_eq_catMap htr]

lemma historyIndices_dense {tg : TimeGrid} (hstart : tg.start = 0)
    (hstep : tg.step = 1) (hstop : 0 ≤ tg.stop) :
    (historyIndices tg).length = (tg.stop + 1).toNat := by
  rw [historyIndices, pyRange_length, pyRangeLen, hstart, hstep,
    if_pos (by norm_num : (0 : Int) < 1)]
  have e : (-(0 : Int)) - (-tg.stop - 1) + 1 - 1 = tg.stop + 1 := by ring
  rw [e]
  simp

/-- The time grids whose sampled history indices are exactly the
consecutive offsets `-(stop+1), …, -1`: `start = 0` with `step = 1`, and
`start = 0, stop = 0` with any positive step (a single index `-1`). -/
def denseTimeGrid (tg : TimeGrid) : Prop :=
  (tg.start = 0 ∧ tg.step = 1 ∧ 0 ≤ tg.stop)
    ∨ (tg.start = 0 ∧ tg.stop = 0 ∧ 0 < tg.step)

instance (tg : TimeGrid) : Decidable (denseTimeGrid tg) := by
  unfold denseTimeGrid
  infer_instance

lemma historyIndices_dense_length {tg : TimeGrid} (hc : denseTimeGrid tg) :
    (historyIndices tg).length = (tg.stop + 1).toNat := by
  rcases hc with ⟨h1, h2, h3⟩ | ⟨h1, h2, h3⟩
  · exact historyIndices_dense h1 h2 h3
  · rw [historyIndices, pyRange_length, pyRangeLen, h1, h2, if_pos h3]
    have e : (-(0 : Int)) - (-(0 : Int) - 1) + tg.step - 1 = tg.step := by ring
    rw [e, Nat.div_self (by omega)]
    omega

lemma withIdx_historyIndices_dense {tg : TimeGrid} (hc : denseTimeGrid tg)
    {p : Nat × Int} (hp : p ∈ withIdx 0 (historyIndices tg)) :
    p.1 < (historyIndices tg).length
      ∧ p.2 = (p.1 : Int) - ((historyIndices tg).length : Int) := by
  have hp' : p ∈ withIdx 0 (pyRange (-tg.stop - 1) (-tg.start) tg.step) := hp
  obtain ⟨hk, hts⟩ := mem_withIdx_pyRange hp'
  have hk' : p.1 < (historyIndices tg).length := by
    rw [historyIndices, pyRange_length]
    exact hk
  have hstop : 0 ≤ tg.stop := by
    rcases hc with ⟨_, _, h3⟩ | ⟨_, h2, _⟩
    · exact h3
    · omega
  have hn : ((historyIndices tg).length : Int) = tg.stop + 1 := by
    rw [historyIndices_dense_length hc]
    omega
  refine ⟨hk', ?_⟩
  rw [hn]
  rcases hc with ⟨h1, h2, h3⟩ | ⟨h1, h2, h3⟩
  · rw [h2] at hts
    omega
  · have hp1 : p.1 = 0 := by
      have hb := hk'
      rw [historyIndices_dense_length (Or.inr ⟨h1, h2, h3⟩), h2] at hb
      omega
    rw [hp1] at hts ⊢
    rw [h2] at hts ⊢
    simp at hts
    omega

/-- Claim C1, counterexample: the time grid `{start: 1, stop: 1, step: 1}`
is accepted by validation, and the claim predicts the single sampled
offset's values land in the channel block at offset 0 (two fill
operations here: one track plus ego); but the code indexes the buffer
with `ts_ind * num_channels + i = -2` on a channel axis of length 1,
which is out of numpy's negative-index range, so rendering raises
`IndexError` (modelled as `none`) and writes nothing at all. -/
theorem C1_block_offsets_counterexample :
    validateTimeGrid ⟨1, 1, 1⟩ = .ok ⟨1, 1, 1⟩
      ∧ vehicleRender ["occupancy"] (historyIndices ⟨1, 1, 1⟩) exIdentity
          exScene exIdentity = none
      ∧ (specVehicleTrace ["occupancy"] (historyIndices ⟨1, 1, 1⟩) exIdentity
          exScene exIdentity).length = 2 :=
  ⟨rfl, rfl, rfl⟩

/-- Claim C1 (amended): both single-class renderers write every sampled
timestep's values into the per-step channel block at offset
`step_index * channels`, blocks ordered most distant history first, for
every valid time grid whose history indices are the consecutive offsets
`-(stop+1), …, -1` (`start = 0, step = 1`, and also
`start = 0, stop = 0` with any positive step): there Python's negative
channel indexing lands exactly on the claimed block.  The claim does not
hold for every valid grid: see the counterexample, where the write index
is out of range and rendering raises instead. -/
theorem C1_block_offsets_amended (config : List String) (tg : TimeGrid)
    (hc : denseTimeGrid tg) (h24 : tg.stop ≤ 24) (tfm : Mat4)
    (scene : Scene) (ttf : Mat4) :
    vehicleRender config (historyIndices tg) tfm scene ttf
        = some (specVehicleTrace config (historyIndices tg) tfm scene ttf)
      ∧ pedestrianRender config (historyIndices tg) tfm scene ttf
        = some (specPedestrianTrace config (historyIndices tg) tfm scene
            ttf) := by
  constructor
  · simp only [vehicleRender, specVehicleTrace, specClassTrace]
    refine optFlatMap_withIdx _ 0 ?_
    intro p hp
    obtain ⟨hk', hts'⟩ := withIdx_historyIndices_dense hc hp
    have hstep := vehicleStepOps_dense config (Mat4.mul tfm ttf) ttf scene
      (n := (historyIndices tg).length) hk'
    rw [← hts'] at hstep
    exact hstep
  · simp only [pedestrianRender, specPedestrianTrace, specClassTrace]
    refine optFlatMap_withIdx _ 0 ?_
    intro p hp
    obtain ⟨hk', hts'⟩ := withIdx_historyIndices_dense hc hp
    have hstep := pedestrianStepOps_dense config (Mat4.mul tfm ttf) ttf scene
      (n := (historyIndices tg).length) hk'
    rw [← hts'] at hstep
    exact hstep

/-- Closed witness for `C1_block_offsets_amended` at
`{start: 0, stop: 0, step: 2}` (a valid grid with `step` different from 1,
whose single write still lands on the claimed block) with an occupancy
renderer, a scaling feature-map transform and a concrete scene. -/
theorem C1_block_offsets_witness :
    (denseTimeGrid ⟨0, 0, 2⟩ ∧ (0 : Int) ≤ 24)
      ∧ (vehicleRender ["occupancy"] (historyIndices ⟨0, 0, 2⟩) exScale2
            exScene exIdentity
          = some (specVehicleTrace ["occupancy"] (historyIndices ⟨0, 0, 2⟩)
              exScale2 exScene exIdentity)
        ∧ pedestrianRender ["occupancy"] (historyIndices ⟨0, 0, 2⟩) exScale2
            exScene exIdentity
          = some (specPedestrianTrace ["occupancy"] (historyIndices ⟨0, 0, 2⟩)
              exScale2 exScene exIdentity)) :=
  ⟨⟨by decide, by decide⟩,
   C1_block_offsets_amended ["occupancy"] ⟨0, 0, 2⟩ (by decide) (by decide)
     exScale2 exScene exIdentity⟩

end Shifts
